import Mathlib

/-!
Shallow embedding of the realtime-comm-protocols server (`src/main.py`).

Python dictionaries are modelled as association lists with insert-or-replace
assignment, floats as rationals, Python `hash` as an arbitrary parameter
function `pyhash : String → Int` (Python `%` on a positive modulus agrees with
`Int.emod`), wall-clock times as rationals passed explicitly, and the HTTP /
OS-sampling collaborators as explicit arguments (`FetchResult`,
`SystemSample`).  Stateful methods become state-passing functions.
-/

/-- Association list lookup; models Python `dict.get` (returning `None`
when the key is absent). -/
def lookupA {κ α : Type} [DecidableEq κ] : List (κ × α) → κ → Option α
  | [], _ => none
  | (k2, v) :: rest, k => if k2 = k then some v else lookupA rest k

/-- Association list insert-or-replace; models Python dict assignment
`d[k] = v` (replace in place if the key exists, else append). -/
def insertA {κ α : Type} [DecidableEq κ] : List (κ × α) → κ → α → List (κ × α)
  | [], k, v => [(k, v)]
  | (k2, v2) :: rest, k, v =>
      if k2 = k then (k, v) :: rest else (k2, v2) :: insertA rest k v

/-- Replace the last element of a list by `f` of it; models the Python
in-place mutation `xs[-1] = f(xs[-1])` (no-op on the empty list, where the
Python source would never reach it). -/
def modifyLast {α : Type} (f : α → α) : List α → List α
  | [] => []
  | [a] => [f a]
  | a :: b :: rest => a :: modifyLast f (b :: rest)

/-- The last element's payload of a nonempty list, `[]` on the empty list;
used to read `update_history[-1]["changes"]`. -/
def lastOf {α : Type} (dflt : α) : List α → α
  | [] => dflt
  | [a] => a
  | _ :: b :: rest => lastOf dflt (b :: rest)

/-- First of two options that is `some`, preferring the left one. -/
def firstSome {α : Type} : Option α → Option α → Option α
  | some x, _ => some x
  | none, b => b

/- ### ConnectionManager (src/main.py lines 39-67) -/

/-- State of `ConnectionManager`: the `active_connections` list of live
WebSocket sessions (sessions modelled as opaque `Nat` handles) and the
`simulated_connections` counter (a Python `int`, so `Int`). -/
structure ConnectionManager where
  active_connections : List Nat
  simulated_connections : Int
deriving DecidableEq

/-- The freshly constructed manager (`__init__`). -/
def manager0 : ConnectionManager :=
  { active_connections := [], simulated_connections := 0 }

/-- `ConnectionManager.connect`: append the session to `active_connections`
(the transport-level `accept` is out of scope). -/
def ConnectionManager.connect (ws : Nat) (m : ConnectionManager) : ConnectionManager :=
  { m with active_connections := m.active_connections ++ [ws] }

/-- `ConnectionManager.disconnect`: remove the first occurrence if present. -/
def ConnectionManager.disconnect (ws : Nat) (m : ConnectionManager) : ConnectionManager :=
  if ws ∈ m.active_connections then
    { m with active_connections := m.active_connections.erase ws }
  else m

/-- `ConnectionManager.add_simulated`: unconditionally add `count` to the
simulated counter; returns the new counter value together with the new state. -/
def ConnectionManager.add_simulated (count : Int) (m : ConnectionManager) :
    Int × ConnectionManager :=
  let m2 : ConnectionManager :=
    { m with simulated_connections := m.simulated_connections + count }
  (m2.simulated_connections, m2)

/-- `ConnectionManager.remove_simulated`: clamp `count` down to the current
counter, then subtract; returns the new counter value together with the new
state. -/
def ConnectionManager.remove_simulated (count : Int) (m : ConnectionManager) :
    Int × ConnectionManager :=
  let c := if count > m.simulated_connections then m.simulated_connections else count
  let m2 : ConnectionManager :=
    { m with simulated_connections := m.simulated_connections - c }
  (m2.simulated_connections, m2)

/-- `ConnectionManager.get_total_connections`: live session count plus the
simulated counter. -/
def ConnectionManager.get_total_connections (m : ConnectionManager) : Int :=
  (m.active_connections.length : Int) + m.simulated_connections

/-- JSON shape `{simulated, real, total}` returned by the connection
endpoints. -/
structure SimResponse where
  simulated : Int
  real : Int
  total : Int
deriving DecidableEq

/-- Endpoint `POST /simulate/add` (src/main.py lines 368-371): the `total`
field is the value returned by `add_simulated`. -/
def add_simulated_connections (count : Int) (m : ConnectionManager) :
    SimResponse × ConnectionManager :=
  let r := ConnectionManager.add_simulated count m
  ({ simulated := r.2.simulated_connections,
     real := (r.2.active_connections.length : Int),
     total := r.1 }, r.2)

/-- Endpoint `POST /simulate/remove` (src/main.py lines 373-376): the `total`
field is the value returned by `remove_simulated`. -/
def remove_simulated_connections (count : Int) (m : ConnectionManager) :
    SimResponse × ConnectionManager :=
  let r := ConnectionManager.remove_simulated count m
  ({ simulated := r.2.simulated_connections,
     real := (r.2.active_connections.length : Int),
     total := r.1 }, r.2)

/-- Endpoint `GET /connections` (src/main.py lines 378-380). -/
def get_connections (m : ConnectionManager) : SimResponse :=
  { simulated := m.simulated_connections,
    real := (m.active_connections.length : Int),
    total := m.get_total_connections }

/- ### WeatherMonitor (src/main.py lines 72-209) -/

/-- A row of the static city table. -/
structure City where
  id : String
  name : String
  country : String
deriving DecidableEq

/-- The static table of monitored cities (`__init__`). -/
def cities : List City :=
  [⟨"london", "London", "GB"⟩,
   ⟨"new_york", "New York", "US"⟩,
   ⟨"tokyo", "Tokyo", "JP"⟩,
   ⟨"sydney", "Sydney", "AU"⟩,
   ⟨"bengaluru", "Bengaluru", "IN"⟩]

/-- One stored per-city weather record (the dict written into
`weather_data[city_id]`). -/
structure Observation where
  city_name : String
  country : String
  temperature : ℚ
  humidity : ℚ
  wind_speed : ℚ
  condition : String
  temp_change : ℚ
deriving DecidableEq

/-- An entry of `update_history[-1]["changes"]`. -/
structure ChangeEntry where
  city_name : String
  temp_change : ℚ
  new_temp : ℚ
deriving DecidableEq

/-- One element of `update_history`: the cycle timestamp plus the `changes`
dict keyed by city id. -/
structure ChangeEvent where
  timestamp : ℚ
  changes : List (String × ChangeEntry)
deriving DecidableEq

/-- State of `WeatherMonitor` (the static `cities` list is the top-level
constant above). -/
structure WeatherMonitor where
  weather_data : List (String × Observation)
  last_updated : ℚ
  update_history : List ChangeEvent
deriving DecidableEq

/-- The freshly constructed monitor (`__init__`; `datetime.now()` modelled
as time `0`). -/
def monitor0 : WeatherMonitor :=
  { weather_data := [], last_updated := 0, update_history := [] }

/-- `_get_city_coordinates`: static latitude/longitude table with a `(0,0)`
default. -/
def get_city_coordinates (city_id : String) : ℚ × ℚ :=
  (lookupA
    [("london", ((515074 : ℚ)/10000, -(1278 : ℚ)/10000)),
     ("new_york", ((407128 : ℚ)/10000, -(740060 : ℚ)/10000)),
     ("tokyo", ((356762 : ℚ)/10000, (1396503 : ℚ)/10000)),
     ("sydney", (-(338688 : ℚ)/10000, (1512093 : ℚ)/10000)),
     ("bengaluru", ((129716 : ℚ)/10000, (775946 : ℚ)/10000))]
    city_id).getD (0, 0)

/-- `_get_weather_condition`: numeric weather code to label, default
"Unknown". -/
def get_weather_condition (code : Int) : String :=
  (lookupA
    [((0 : Int), "Clear sky"),
     (1, "Mainly clear"), (2, "Partly cloudy"), (3, "Overcast"),
     (45, "Fog"), (48, "Fog"),
     (51, "Light drizzle"), (53, "Drizzle"), (55, "Drizzle"),
     (61, "Rain"), (63, "Rain"), (65, "Heavy rain"),
     (71, "Snow"), (73, "Snow"), (75, "Heavy snow"),
     (80, "Rain showers"), (95, "Thunderstorm")]
    code).getD "Unknown"

/-- The `current` block of a successful API response, with the `.get(_, 0)`
defaults already applied. -/
structure CurrentData where
  temperature_2m : ℚ
  relative_humidity_2m : ℚ
  wind_speed_10m : ℚ
  weather_code : Int
deriving DecidableEq

/-- Outcome of one city's HTTP fetch: a response with a status code and
parsed `current` block, or a raised exception (network error / timeout). -/
inductive FetchResult where
  | response (status_code : Nat) (current : CurrentData)
  | exn
deriving DecidableEq

/-- The fallback record written on a failed fetch (both failure branches of
`_fetch_city_weather` share this shape, differing only in the condition
label). -/
def fallback_data (pyhash : String → Int) (city : City) (cond : String) : Observation :=
  { city_name := city.name
    country := city.country
    temperature := ((20 + pyhash city.id % 10 : Int) : ℚ)
    humidity := ((50 + pyhash city.id % 30 : Int) : ℚ)
    wind_speed := ((5 + pyhash city.id % 10 : Int) : ℚ)
    condition := cond
    temp_change := 0 }

/-- `previous_data = self.weather_data.get(city["id"], {})` followed by
`previous_data.get("temperature", 0)`. -/
def prevTemp (wd : List (String × Observation)) (k : String) : ℚ :=
  match lookupA wd k with
  | some obs => obs.temperature
  | none => 0

/-- `_fetch_city_weather` (src/main.py lines 104-185), with the HTTP call
abstracted into the `res` argument. -/
def fetch_city_weather (pyhash : String → Int) (city : City) (res : FetchResult)
    (st : WeatherMonitor) : WeatherMonitor :=
  match res with
  | FetchResult.response status_code current =>
      if status_code = 200 then
        let old_temp := prevTemp st.weather_data city.id
        let weather_condition := get_weather_condition current.weather_code
        let new_temp := current.temperature_2m
        let temp_change := new_temp - old_temp
        let obs : Observation :=
          { city_name := city.name
            country := city.country
            temperature := new_temp
            humidity := current.relative_humidity_2m
            wind_speed := current.wind_speed_10m
            condition := weather_condition
            temp_change := temp_change }
        let st1 : WeatherMonitor :=
          { st with weather_data := insertA st.weather_data city.id obs }
        let entry : ChangeEntry :=
          { city_name := city.name
            temp_change := temp_change
            new_temp := new_temp }
        if (1 : ℚ)/2 ≤ |temp_change| then
          let hist :=
            modifyLast (fun ev => { ev with changes := insertA ev.changes city.id entry })
              st1.update_history
          { st1 with update_history := hist }
        else st1
      else
        let obs := fallback_data pyhash city "API Error - Using Fallback Data"
        { st with weather_data := insertA st.weather_data city.id obs }
  | FetchResult.exn =>
      let obs := fallback_data pyhash city "Error - Using Fallback Data"
      { st with weather_data := insertA st.weather_data city.id obs }

/-- The per-city fan-out of `update_weather`.  The tasks write disjoint
dict keys, so the unordered concurrent completion is modelled as a fold in
table order. -/
def fetch_all (pyhash : String → Int) (results : String → FetchResult) :
    List City → WeatherMonitor → WeatherMonitor
  | [], st => st
  | c :: rest, st =>
      fetch_all pyhash results rest (fetch_city_weather pyhash c (results c.id) st)

/-- `update_weather` (src/main.py lines 86-102): stamp `last_updated`, pop
the oldest history entry when the history is longer than 15, append the new
empty change event, then run all city fetches. -/
def update_weather (pyhash : String → Int) (now : ℚ) (results : String → FetchResult)
    (st : WeatherMonitor) : WeatherMonitor :=
  let history :=
    if st.update_history.length > 15 then st.update_history.tail
    else st.update_history
  fetch_all pyhash results cities
    { st with
        last_updated := now,
        update_history := history ++ [{ timestamp := now, changes := [] }] }

/-- The `changes` dict of the current (last) history entry. -/
def lastChanges (st : WeatherMonitor) : List (String × ChangeEntry) :=
  (lastOf { timestamp := 0, changes := [] } st.update_history).changes

/- ### System metrics endpoint (src/main.py lines 324-365) -/

/-- The values the OS-metrics provider (psutil) returns at one sampling
instant. -/
structure SystemSample where
  cpu_percent : ℚ
  cpu_count : Int
  memory_percent : ℚ
  memory_used : Int
  memory_total : Int
  disk_percent : ℚ
  disk_used : Int
  disk_total : Int
deriving DecidableEq

/-- The `cpu` block of the metrics JSON. -/
structure CpuMetrics where
  percent : ℚ
  cores : Int
deriving DecidableEq

/-- The `memory` and `disk` blocks of the metrics JSON. -/
structure UsageMetrics where
  percent : ℚ
  used : Int
  total : Int
deriving DecidableEq

/-- A full metrics snapshot as returned by `GET /system-metrics`. -/
structure SystemMetrics where
  timestamp : ℚ
  cpu : CpuMetrics
  memory : UsageMetrics
  disk : UsageMetrics
deriving DecidableEq

/-- Build the snapshot dict from the current time and the sampled values. -/
def build_metrics (now : ℚ) (s : SystemSample) : SystemMetrics :=
  { timestamp := now
    cpu := { percent := s.cpu_percent, cores := s.cpu_count }
    memory := { percent := s.memory_percent, used := s.memory_used, total := s.memory_total }
    disk := { percent := s.disk_percent, used := s.disk_used, total := s.disk_total } }

/-- The module-level globals `last_metrics_time` / `cached_metrics`. -/
structure MetricsGlobals where
  last_metrics_time : ℚ
  cached_metrics : Option SystemMetrics
deriving DecidableEq

/-- Initial globals: `last_metrics_time = 0`, `cached_metrics = None`. -/
def metrics0 : MetricsGlobals :=
  { last_metrics_time := 0, cached_metrics := none }

/-- `get_system_metrics` (src/main.py lines 327-365): return the cached
snapshot when one exists and is younger than 1 second, else sample anew,
stamp with the current time, and overwrite the cache. -/
def get_system_metrics (current_time : ℚ) (sample : SystemSample) (g : MetricsGlobals) :
    SystemMetrics × MetricsGlobals :=
  match g.cached_metrics with
  | some cached =>
      if current_time - g.last_metrics_time < 1 then (cached, g)
      else
        let snap := build_metrics current_time sample
        (snap, { last_metrics_time := current_time, cached_metrics := some snap })
  | none =>
      let snap := build_metrics current_time sample
      (snap, { last_metrics_time := current_time, cached_metrics := some snap })

/- ### Characterization helpers (proved equal to what the source functions do) -/

/-- The observation that `_fetch_city_weather` stores for `city` given the
fetch outcome and the previously stored temperature. -/
def storedObs (pyhash : String → Int) (city : City) (res : FetchResult) (old_temp : ℚ) :
    Observation :=
  match res with
  | FetchResult.response status_code current =>
      if status_code = 200 then
        { city_name := city.name
          country := city.country
          temperature := current.temperature_2m
          humidity := current.relative_humidity_2m
          wind_speed := current.wind_speed_10m
          condition := get_weather_condition current.weather_code
          temp_change := current.temperature_2m - old_temp }
      else fallback_data pyhash city "API Error - Using Fallback Data"
  | FetchResult.exn => fallback_data pyhash city "Error - Using Fallback Data"

/-- The change entry that `_fetch_city_weather` records for `city` in the
current cycle (none unless the fetch succeeded with |Δtemp| ≥ 0.5). -/
def recordedChange (city : City) (res : FetchResult) (old_temp : ℚ) : Option ChangeEntry :=
  match res with
  | FetchResult.response status_code current =>
      if status_code = 200 then
        if (1 : ℚ)/2 ≤ |current.temperature_2m - old_temp| then
          some { city_name := city.name
                 temp_change := current.temperature_2m - old_temp
                 new_temp := current.temperature_2m }
        else none
      else none
  | FetchResult.exn => none

/-- Apply an optional change entry to a change event. -/
def applyChange (city : City) (o : Option ChangeEntry) (ev : ChangeEvent) : ChangeEvent :=
  match o with
  | some e => { ev with changes := insertA ev.changes city.id e }
  | none => ev

/-- Insert a key into a key list unless already present (the key trace of
`insertA`). -/
def insertKey {κ : Type} [DecidableEq κ] (ks : List κ) (k : κ) : List κ :=
  if k ∈ ks then ks else ks ++ [k]

/-- The history push that `update_weather` performs before the per-city
fetches: stamp `last_updated`, pop the head when the history is longer than
15, append the fresh empty change event. -/
def pushEvent (now : ℚ) (st : WeatherMonitor) : WeatherMonitor :=
  { st with
      last_updated := now,
      update_history :=
        (if st.update_history.length > 15 then st.update_history.tail
         else st.update_history) ++ [{ timestamp := now, changes := [] }] }

/- ### Concrete inputs used by witnesses and counterexamples -/

/-- A trivial hash function standing in for Python's (process-dependent)
string hash. -/
def hash0 : String → Int := fun _ => 0

/-- A run where every city fetch raises. -/
def resultsExn : String → FetchResult := fun _ => FetchResult.exn

/-- A run where every city fetch succeeds with temperature 10. -/
def resultsTen : String → FetchResult :=
  fun _ => FetchResult.response 200 ⟨10, 50, 5, 0⟩

/-- The first row of the static city table. -/
def cityLondon : City := ⟨"london", "London", "GB"⟩

/-- A monitor state holding one previous observation for London with
temperature 3. -/
def monitorPrev : WeatherMonitor :=
  { weather_data := [("london", ⟨"London", "GB", 3, 40, 2, "Clear sky", 0⟩)],
    last_updated := 0,
    update_history := [] }

/-- Iterated refreshes from the initial monitor, all fetches failing. -/
def iterRefresh : Nat → WeatherMonitor
  | 0 => monitor0
  | n + 1 => update_weather hash0 0 resultsExn (iterRefresh n)

/-- A manager with one live session and no simulated connections. -/
def managerLive : ConnectionManager :=
  { active_connections := [0], simulated_connections := 0 }

/-- An all-zero OS sample. -/
def sample0 : SystemSample := ⟨0, 0, 0, 0, 0, 0, 0, 0⟩

/- ### Association list lemmas -/

theorem lookupA_insertA_self {κ α : Type} [DecidableEq κ] (l : List (κ × α)) (k : κ) (v : α) :
    lookupA (insertA l k v) k = some v := by
  induction l with
  | nil => simp [insertA, lookupA]
  | cons p rest ih =>
      obtain ⟨k2, v2⟩ := p
      by_cases h : k2 = k
      · simp [insertA, h, lookupA]
      · simp [insertA, h, lookupA, ih]

theorem lookupA_insertA_ne {κ α : Type} [DecidableEq κ] (l : List (κ × α)) (k k2 : κ) (v : α)
    (h : k2 ≠ k) : lookupA (insertA l k v) k2 = lookupA l k2 := by
  have hk : ¬ k = k2 := fun hh => h hh.symm
  induction l with
  | nil => simp [insertA, lookupA, hk]
  | cons p rest ih =>
      obtain ⟨k3, v3⟩ := p
      by_cases h3 : k3 = k
      · subst h3
        simp [insertA, lookupA, hk]
      · simp [insertA, lookupA, h3, ih]

theorem insertA_keys {κ α : Type} [DecidableEq κ] (l : List (κ × α)) (k : κ) (v : α) :
    (insertA l k v).map Prod.fst = insertKey (l.map Prod.fst) k := by
  induction l with
  | nil => simp [insertA, insertKey]
  | cons p rest ih =>
      obtain ⟨k2, v2⟩ := p
      by_cases h : k2 = k
      · subst h
        simp [insertA, insertKey]
      · by_cases hm : k ∈ rest.map Prod.fst
        · simp [insertA, h, insertKey, hm, Ne.symm h, ih]
        · simp [insertA, h, insertKey, hm, Ne.symm h, ih]

/- ### modifyLast / lastOf lemmas -/

theorem modifyLast_append {α : Type} (f : α → α) :
    ∀ (l : List α) (a : α), modifyLast f (l ++ [a]) = l ++ [f a]
  | [], _ => rfl
  | [_], _ => rfl
  | x :: y :: rest, a => by
      have ih := modifyLast_append f (y :: rest) a
      show x :: modifyLast f ((y :: rest) ++ [a]) = x :: ((y :: rest) ++ [f a])
      rw [ih]

theorem lastOf_append {α : Type} (d : α) :
    ∀ (l : List α) (a : α), lastOf d (l ++ [a]) = a
  | [], _ => rfl
  | [_], _ => rfl
  | _ :: y :: rest, a => lastOf_append d (y :: rest) a

/- ### applyChange lemmas -/

theorem applyChange_timestamp (c : City) (o : Option ChangeEntry) (ev : ChangeEvent) :
    (applyChange c o ev).timestamp = ev.timestamp := by
  cases o <;> rfl

theorem applyChange_lookup_ne (c : City) (o : Option ChangeEntry) (ev : ChangeEvent)
    (k : String) (h : k ≠ c.id) :
    lookupA (applyChange c o ev).changes k = lookupA ev.changes k := by
  cases o with
  | none => rfl
  | some e => exact lookupA_insertA_ne ev.changes c.id k e h

theorem applyChange_lookup_self (c : City) (o : Option ChangeEntry) (ev : ChangeEvent) :
    lookupA (applyChange c o ev).changes c.id = firstSome o (lookupA ev.changes c.id) := by
  cases o with
  | none => rfl
  | some e => exact lookupA_insertA_self ev.changes c.id e

/- ### Step lemmas for `_fetch_city_weather` -/

theorem fetch_weather_data (pyhash : String → Int) (city : City) (res : FetchResult)
    (st : WeatherMonitor) :
    (fetch_city_weather pyhash city res st).weather_data
      = insertA st.weather_data city.id
          (storedObs pyhash city res (prevTemp st.weather_data city.id)) := by
  cases res with
  | response s cur =>
      simp only [fetch_city_weather, storedObs]
      split_ifs <;> rfl
  | exn => rfl

theorem fetch_history (pyhash : String → Int) (city : City) (res : FetchResult)
    (st : WeatherMonitor) (h : List ChangeEvent) (ev : ChangeEvent)
    (hh : st.update_history = h ++ [ev]) :
    (fetch_city_weather pyhash city res st).update_history
      = h ++ [applyChange city
                (recordedChange city res (prevTemp st.weather_data city.id)) ev] := by
  cases res with
  | response s cur =>
      simp only [fetch_city_weather, recordedChange, applyChange]
      split_ifs <;> simp [hh, modifyLast_append]
  | exn => exact hh

/- ### Fold lemmas for `fetch_all` -/

theorem fetch_all_cons (pyhash : String → Int) (results : String → FetchResult) (c : City)
    (rest : List City) (st : WeatherMonitor) :
    fetch_all pyhash results (c :: rest) st
      = fetch_all pyhash results rest (fetch_city_weather pyhash c (results c.id) st) := rfl

theorem fetch_all_wd_ne (pyhash : String → Int) (results : String → FetchResult) :
    ∀ (cs : List City) (st : WeatherMonitor) (k : String), k ∉ cs.map City.id →
      lookupA (fetch_all pyhash results cs st).weather_data k = lookupA st.weather_data k
  | [], _, _, _ => rfl
  | c :: rest, st, k, hk => by
      rw [List.map_cons] at hk
      have h1 : k ≠ c.id := fun h => hk (by simp [h])
      have h2 : k ∉ rest.map City.id := fun h => hk (by simp [h])
      calc lookupA (fetch_all pyhash results (c :: rest) st).weather_data k
          = lookupA (fetch_all pyhash results rest
              (fetch_city_weather pyhash c (results c.id) st)).weather_data k := rfl
        _ = lookupA (fetch_city_weather pyhash c (results c.id) st).weather_data k :=
            fetch_all_wd_ne pyhash results rest _ k h2
        _ = lookupA st.weather_data k := by
            rw [fetch_weather_data]
            exact lookupA_insertA_ne _ _ _ _ h1

theorem fetch_all_hist (pyhash : String → Int) (results : String → FetchResult) :
    ∀ (cs : List City) (st : WeatherMonitor) (h : List ChangeEvent) (ev : ChangeEvent),
      st.update_history = h ++ [ev] →
      ∃ ch, (fetch_all pyhash results cs st).update_history
              = h ++ [{ timestamp := ev.timestamp, changes := ch }]
        ∧ ∀ k, k ∉ cs.map City.id → lookupA ch k = lookupA ev.changes k
  | [], st, h, ev, hh =>
      ⟨ev.changes, by show st.update_history = _; rw [hh], fun _ _ => rfl⟩
  | c :: rest, st, h, ev, hh => by
      have hstep := fetch_history pyhash c (results c.id) st h ev hh
      obtain ⟨ch, hch, hlook⟩ :=
        fetch_all_hist pyhash results rest (fetch_city_weather pyhash c (results c.id) st) h
          (applyChange c (recordedChange c (results c.id) (prevTemp st.weather_data c.id)) ev)
          hstep
      refine ⟨ch, ?_, ?_⟩
      · rw [fetch_all_cons, hch, applyChange_timestamp]
      · intro k hk
        rw [List.map_cons] at hk
        have h1 : k ≠ c.id := fun hcontra => hk (by simp [hcontra])
        have h2 : k ∉ rest.map City.id := fun hcontra => hk (by simp [hcontra])
        rw [hlook k h2, applyChange_lookup_ne c _ _ k h1]

theorem fetch_all_wd_mem (pyhash : String → Int) (results : String → FetchResult) :
    ∀ (cs : List City) (st : WeatherMonitor) (c : City),
      (cs.map City.id).Nodup → c ∈ cs →
      lookupA (fetch_all pyhash results cs st).weather_data c.id
        = some (storedObs pyhash c (results c.id) (prevTemp st.weather_data c.id))
  | [], _, c, _, hc => absurd hc (List.not_mem_nil c)
  | d :: rest, st, c, hnd, hc => by
      rw [List.map_cons, List.nodup_cons] at hnd
      rcases List.mem_cons.mp hc with rfl | hc2
      · have hrest : lookupA (fetch_all pyhash results rest
              (fetch_city_weather pyhash c (results c.id) st)).weather_data c.id
            = lookupA (fetch_city_weather pyhash c (results c.id) st).weather_data c.id :=
          fetch_all_wd_ne pyhash results rest _ c.id hnd.1
        calc lookupA (fetch_all pyhash results (c :: rest) st).weather_data c.id
            = lookupA (fetch_city_weather pyhash c (results c.id) st).weather_data c.id := hrest
          _ = some (storedObs pyhash c (results c.id) (prevTemp st.weather_data c.id)) := by
              rw [fetch_weather_data]
              exact lookupA_insertA_self _ _ _
      · have hne : c.id ≠ d.id := by
          intro hcontra
          exact hnd.1 (hcontra ▸ List.mem_map_of_mem City.id hc2)
        have hpres : lookupA (fetch_city_weather pyhash d (results d.id) st).weather_data c.id
            = lookupA st.weather_data c.id := by
          rw [fetch_weather_data]
          exact lookupA_insertA_ne _ _ _ _ hne
        have ih := fetch_all_wd_mem pyhash results rest
          (fetch_city_weather pyhash d (results d.id) st) c hnd.2 hc2
        calc lookupA (fetch_all pyhash results (d :: rest) st).weather_data c.id
            = some (storedObs pyhash c (results c.id)
                (prevTemp (fetch_city_weather pyhash d (results d.id) st).weather_data c.id)) :=
              ih
          _ = some (storedObs pyhash c (results c.id) (prevTemp st.weather_data c.id)) := by
              simp only [prevTemp, hpres]

theorem fetch_all_ch_mem (pyhash : String → Int) (results : String → FetchResult) :
    ∀ (cs : List City) (st : WeatherMonitor) (h : List ChangeEvent) (ev : ChangeEvent) (c : City),
      st.update_history = h ++ [ev] → (cs.map City.id).Nodup → c ∈ cs →
      ∃ ch, (fetch_all pyhash results cs st).update_history
              = h ++ [{ timestamp := ev.timestamp, changes := ch }]
        ∧ lookupA ch c.id
            = firstSome (recordedChange c (results c.id) (prevTemp st.weather_data c.id))
                (lookupA ev.changes c.id)
  | [], _, _, _, c, _, _, hc => absurd hc (List.not_mem_nil c)
  | d :: rest, st, h, ev, c, hh, hnd, hc => by
      rw [List.map_cons, List.nodup_cons] at hnd
      rcases List.mem_cons.mp hc with rfl | hc2
      · have hstep := fetch_history pyhash c (results c.id) st h ev hh
        obtain ⟨ch, hch, hlook⟩ :=
          fetch_all_hist pyhash results rest (fetch_city_weather pyhash c (results c.id) st) h
            (applyChange c (recordedChange c (results c.id) (prevTemp st.weather_data c.id)) ev)
            hstep
        refine ⟨ch, ?_, ?_⟩
        · rw [fetch_all_cons, hch, applyChange_timestamp]
        · rw [hlook c.id hnd.1, applyChange_lookup_self]
      · have hne : c.id ≠ d.id := by
          intro hcontra
          exact hnd.1 (hcontra ▸ List.mem_map_of_mem City.id hc2)
        have hstep := fetch_history pyhash d (results d.id) st h ev hh
        obtain ⟨ch, hch, hlook⟩ :=
          fetch_all_ch_mem pyhash results rest (fetch_city_weather pyhash d (results d.id) st) h
            (applyChange d (recordedChange d (results d.id) (prevTemp st.weather_data d.id)) ev)
            c hstep hnd.2 hc2
        have hpres : lookupA (fetch_city_weather pyhash d (results d.id) st).weather_data c.id
            = lookupA st.weather_data c.id := by
          rw [fetch_weather_data]
          exact lookupA_insertA_ne _ _ _ _ hne
        refine ⟨ch, ?_, ?_⟩
        · rw [fetch_all_cons, hch, applyChange_timestamp]
        · rw [hlook, applyChange_lookup_ne d _ _ c.id hne]
          simp only [prevTemp, hpres]

theorem fetch_keys (pyhash : String → Int) (city : City) (res : FetchResult)
    (st : WeatherMonitor) :
    (fetch_city_weather pyhash city res st).weather_data.map Prod.fst
      = insertKey (st.weather_data.map Prod.fst) city.id := by
  rw [fetch_weather_data, insertA_keys]

theorem fetch_all_keys (pyhash : String → Int) (results : String → FetchResult) :
    ∀ (cs : List City) (st : WeatherMonitor),
      (fetch_all pyhash results cs st).weather_data.map Prod.fst
        = cs.foldl (fun ks c => insertKey ks c.id) (st.weather_data.map Prod.fst)
  | [], _ => rfl
  | c :: rest, st => by
      calc (fetch_all pyhash results (c :: rest) st).weather_data.map Prod.fst
          = (fetch_all pyhash results rest
              (fetch_city_weather pyhash c (results c.id) st)).weather_data.map Prod.fst := rfl
        _ = rest.foldl (fun ks c2 => insertKey ks c2.id)
              ((fetch_city_weather pyhash c (results c.id) st).weather_data.map Prod.fst) :=
            fetch_all_keys pyhash results rest _
        _ = (c :: rest).foldl (fun ks c2 => insertKey ks c2.id)
              (st.weather_data.map Prod.fst) := by
            rw [fetch_keys, List.foldl_cons]

/- ### Glue lemmas -/

theorem update_weather_eq (pyhash : String → Int) (now : ℚ) (results : String → FetchResult)
    (st : WeatherMonitor) :
    update_weather pyhash now results st = fetch_all pyhash results cities (pushEvent now st) :=
  rfl

theorem pushEvent_weather_data (now : ℚ) (st : WeatherMonitor) :
    (pushEvent now st).weather_data = st.weather_data := rfl

theorem pushEvent_history (now : ℚ) (st : WeatherMonitor) :
    (pushEvent now st).update_history
      = (if st.update_history.length > 15 then st.update_history.tail
         else st.update_history) ++ [{ timestamp := now, changes := [] }] := rfl

theorem storedObs_name_country (pyhash : String → Int) (c : City) (res : FetchResult) (t : ℚ) :
    (storedObs pyhash c res t).city_name = c.name ∧ (storedObs pyhash c res t).country = c.country := by
  cases res with
  | response s cur =>
      simp only [storedObs]
      split_ifs <;> exact ⟨rfl, rfl⟩
  | exn => exact ⟨rfl, rfl⟩

theorem cities_nodup : (cities.map City.id).Nodup := by decide

attribute [local semireducible] Rat.sub Rat.add Rat.mul Rat.inv

set_option maxRecDepth 8000

/- ### Claim theorems -/

/-- C1 counterexample: after 16 refreshes from the initial monitor the
ChangeEvent history has 16 entries, so the stated bound of 15 is exceeded. -/
theorem c1_counterexample : 15 < (iterRefresh 16).update_history.length := by decide

/-- C1 (amended): the ChangeEvent history is a bounded FIFO with bound 16,
not 15: a refresh evicts the oldest entry (the head, in cycle-start order)
exactly when the pre-refresh length exceeds 15, then appends the new cycle's
event stamped `now`; consequently the length never exceeds 16. -/
theorem c1_history_bounded_fifo (pyhash : String → Int) (now : ℚ)
    (results : String → FetchResult) (st : WeatherMonitor)
    (hlen : st.update_history.length ≤ 16) :
    (update_weather pyhash now results st).update_history.map ChangeEvent.timestamp
      = ((if st.update_history.length > 15 then st.update_history.tail
          else st.update_history).map ChangeEvent.timestamp) ++ [now]
    ∧ (update_weather pyhash now results st).update_history.length ≤ 16 := by
  obtain ⟨ch, hch, hlook⟩ :=
    fetch_all_hist pyhash results cities (pushEvent now st)
      (if st.update_history.length > 15 then st.update_history.tail else st.update_history)
      { timestamp := now, changes := [] } (pushEvent_history now st)
  rw [update_weather_eq, hch]
  constructor
  · simp
  · rw [List.length_append]
    simp only [List.length_singleton]
    rcases Nat.lt_or_ge 15 st.update_history.length with h15 | h15
    · rw [if_pos h15]
      have htail : st.update_history.tail.length = st.update_history.length - 1 :=
        List.length_tail _
      omega
    · rw [if_neg (Nat.not_lt.mpr h15)]
      omega

/-- C1 witness: the amended theorem applied to the initial monitor. -/
theorem c1_witness :
    monitor0.update_history.length ≤ 16
    ∧ ((update_weather hash0 0 resultsExn monitor0).update_history.map ChangeEvent.timestamp
        = ((if monitor0.update_history.length > 15 then monitor0.update_history.tail
            else monitor0.update_history).map ChangeEvent.timestamp) ++ [0]
      ∧ (update_weather hash0 0 resultsExn monitor0).update_history.length ≤ 16) :=
  ⟨by decide, c1_history_bounded_fifo hash0 0 resultsExn monitor0 (by decide)⟩

/-- C2 (code bug): with one live session and an empty simulated counter,
`POST /simulate/add?count=1` returns `total = 1` although
`get_total_connections` of the resulting state is `2`, and the subsequent
`POST /simulate/remove?count=1` returns `total = 0` although the total is
`1`: the endpoints return the bare simulated counter (the value
`add_simulated` / `remove_simulated` return) in the `total` field. -/
theorem c2_simulate_total_mismatch :
    (add_simulated_connections 1 managerLive).1.total = 1
    ∧ ConnectionManager.get_total_connections (add_simulated_connections 1 managerLive).2 = 2
    ∧ (remove_simulated_connections 1 (add_simulated_connections 1 managerLive).2).1.total = 0
    ∧ ConnectionManager.get_total_connections
        (remove_simulated_connections 1 (add_simulated_connections 1 managerLive).2).2 = 1 := by
  decide

/-- C3 counterexample: when no previous observation exists for London and the
fetch succeeds with temperature 10, the stored `temp_change` is 10, not 0 as
the claim states. -/
theorem c3_counterexample :
    lookupA monitor0.weather_data "london" = none
    ∧ Option.map Observation.temp_change
        (lookupA (update_weather hash0 0 resultsTen monitor0).weather_data "london")
      = some 10
    ∧ some (10 : ℚ) ≠ some (0 : ℚ) := by
  decide

/-- C3 (amended): for a city whose fetch succeeds, the stored `temp_change`
equals the new temperature minus `prevTemp`, the previously stored
temperature with default 0 — so with no previous observation it equals the
new temperature itself, not 0. -/
theorem c3_temp_change_vs_previous (pyhash : String → Int) (now : ℚ)
    (results : String → FetchResult) (st : WeatherMonitor) (c : City) (hc : c ∈ cities)
    (cur : CurrentData) (hres : results c.id = FetchResult.response 200 cur) :
    Option.map Observation.temp_change
        (lookupA (update_weather pyhash now results st).weather_data c.id)
      = some (cur.temperature_2m - prevTemp st.weather_data c.id) := by
  rw [update_weather_eq,
    fetch_all_wd_mem pyhash results cities (pushEvent now st) c cities_nodup hc,
    pushEvent_weather_data, hres]
  simp [storedObs]

/-- C3 witness: the amended theorem at a state holding a previous London
observation with temperature 3 and a successful fetch with temperature 10. -/
theorem c3_witness :
    (cityLondon ∈ cities ∧ resultsTen cityLondon.id = FetchResult.response 200 ⟨10, 50, 5, 0⟩)
    ∧ Option.map Observation.temp_change
        (lookupA (update_weather hash0 0 resultsTen monitorPrev).weather_data cityLondon.id)
      = some (10 - prevTemp monitorPrev.weather_data cityLondon.id) :=
  ⟨⟨by decide, rfl⟩,
    c3_temp_change_vs_previous hash0 0 resultsTen monitorPrev cityLondon (by decide)
      ⟨10, 50, 5, 0⟩ rfl⟩

/-- C4 counterexample: connecting the same session handle twice from the
fresh manager yields a different state than connecting it once (the session
is recorded twice) and `get_total_connections` becomes 2, not 1. -/
theorem c4_counterexample :
    ConnectionManager.connect 0 (ConnectionManager.connect 0 manager0)
      ≠ ConnectionManager.connect 0 manager0
    ∧ ConnectionManager.get_total_connections
        (ConnectionManager.connect 0 (ConnectionManager.connect 0 manager0)) = 2
    ∧ ConnectionManager.get_total_connections (ConnectionManager.connect 0 manager0) = 1 := by
  decide

/-- C4 (amended): `connect` is an unconditional append, not an idempotent
add: every call (including a second connect of an already-live session)
appends the session handle and increases `get_total_connections` by one. -/
theorem c4_connect_appends (m : ConnectionManager) (ws : Nat) :
    (ConnectionManager.connect ws m).active_connections = m.active_connections ++ [ws]
    ∧ ConnectionManager.get_total_connections (ConnectionManager.connect ws m)
        = ConnectionManager.get_total_connections m + 1 := by
  refine ⟨rfl, ?_⟩
  simp only [ConnectionManager.connect, ConnectionManager.get_total_connections,
    List.length_append, List.length_singleton]
  push_cast
  ring

/-- C5 (confirmed): within one refresh cycle, a city with a previous
observation and a successful fetch gets an entry in the current cycle's
ChangeEvent exactly when |new temperature − previous temperature| ≥ 0.5, and
the entry records the display name, the temperature change, and the new
temperature. -/
theorem c5_change_event_iff (pyhash : String → Int) (now : ℚ)
    (results : String → FetchResult) (st : WeatherMonitor) (c : City) (hc : c ∈ cities)
    (prevObs : Observation) (hprev : lookupA st.weather_data c.id = some prevObs)
    (cur : CurrentData) (hres : results c.id = FetchResult.response 200 cur) :
    lookupA (lastChanges (update_weather pyhash now results st)) c.id
      = if (1 : ℚ)/2 ≤ |cur.temperature_2m - prevObs.temperature|
        then some { city_name := c.name
                    temp_change := cur.temperature_2m - prevObs.temperature
                    new_temp := cur.temperature_2m }
        else none := by
  obtain ⟨ch, hch, hlook⟩ :=
    fetch_all_ch_mem pyhash results cities (pushEvent now st)
      (if st.update_history.length > 15 then st.update_history.tail else st.update_history)
      { timestamp := now, changes := [] } c (pushEvent_history now st) cities_nodup hc
  have hpt : prevTemp (pushEvent now st).weather_data c.id = prevObs.temperature := by
    simp only [prevTemp, pushEvent_weather_data, hprev]
  have hlast : lastChanges (update_weather pyhash now results st) = ch := by
    rw [update_weather_eq]
    unfold lastChanges
    rw [hch, lastOf_append]
  rw [hlast, hlook, hpt, hres]
  simp only [recordedChange]
  split_ifs <;> simp [firstSome, lookupA]

/-- C5 witness: the theorem at a state with a previous London observation of
temperature 3 and a successful fetch of temperature 10 (the |Δ| ≥ 0.5 branch
fires and the entry is recorded). -/
theorem c5_witness :
    (cityLondon ∈ cities
      ∧ lookupA monitorPrev.weather_data cityLondon.id
          = some ⟨"London", "GB", 3, 40, 2, "Clear sky", 0⟩
      ∧ resultsTen cityLondon.id = FetchResult.response 200 ⟨10, 50, 5, 0⟩)
    ∧ lookupA (lastChanges (update_weather hash0 0 resultsTen monitorPrev)) cityLondon.id
      = if (1 : ℚ)/2 ≤ |(10 : ℚ) - 3|
        then some { city_name := cityLondon.name, temp_change := (10 : ℚ) - 3, new_temp := 10 }
        else none :=
  ⟨⟨by decide, rfl, rfl⟩,
    c5_change_event_iff hash0 0 resultsTen monitorPrev cityLondon (by decide)
      ⟨"London", "GB", 3, 40, 2, "Clear sky", 0⟩ rfl ⟨10, 50, 5, 0⟩ rfl⟩

/-- C6 (confirmed): for n ≥ 0 and any registry state, `remove_simulated`
decreases the simulated counter by exactly min(n, current counter), and the
resulting counter is never negative. -/
theorem c6_remove_simulated_min (m : ConnectionManager) (n : Int) (hn : 0 ≤ n) :
    (ConnectionManager.remove_simulated n m).2.simulated_connections
      = m.simulated_connections - min n m.simulated_connections
    ∧ 0 ≤ (ConnectionManager.remove_simulated n m).2.simulated_connections := by
  simp only [ConnectionManager.remove_simulated, min_def]
  split_ifs <;> constructor <;> omega

/-- C6 witness: removing 3 from a counter of 5 leaves 2. -/
theorem c6_witness :
    (0 : Int) ≤ 3
    ∧ ((ConnectionManager.remove_simulated 3 ⟨[], 5⟩).2.simulated_connections
        = 5 - min 3 5
      ∧ 0 ≤ (ConnectionManager.remove_simulated 3 ⟨[], 5⟩).2.simulated_connections) :=
  ⟨by decide, c6_remove_simulated_min ⟨[], 5⟩ 3 (by decide)⟩

/-- C7 (confirmed): a city whose fetch fails (non-200 status or a raised
error) is stored as the deterministic hash-derived fallback observation —
temperature 20 + hash%10, humidity 50 + hash%30, wind 5 + hash%10 — with
temp_change 0 and one of the two error-fallback condition labels, and no
entry is recorded in the current cycle's ChangeEvent. -/
theorem c7_fallback_on_failure (pyhash : String → Int) (now : ℚ)
    (results : String → FetchResult) (st : WeatherMonitor) (c : City) (hc : c ∈ cities)
    (hfail : (∃ s cur, results c.id = FetchResult.response s cur ∧ s ≠ 200)
             ∨ results c.id = FetchResult.exn) :
    (∃ obs, lookupA (update_weather pyhash now results st).weather_data c.id = some obs
      ∧ obs.temperature = ((20 + pyhash c.id % 10 : Int) : ℚ)
      ∧ obs.humidity = ((50 + pyhash c.id % 30 : Int) : ℚ)
      ∧ obs.wind_speed = ((5 + pyhash c.id % 10 : Int) : ℚ)
      ∧ obs.temp_change = 0
      ∧ (obs.condition = "API Error - Using Fallback Data"
         ∨ obs.condition = "Error - Using Fallback Data"))
    ∧ lookupA (lastChanges (update_weather pyhash now results st)) c.id = none := by
  obtain ⟨ch, hch, hlook⟩ :=
    fetch_all_ch_mem pyhash results cities (pushEvent now st)
      (if st.update_history.length > 15 then st.update_history.tail else st.update_history)
      { timestamp := now, changes := [] } c (pushEvent_history now st) cities_nodup hc
  have hwd :
      lookupA (update_weather pyhash now results st).weather_data c.id
        = some (storedObs pyhash c (results c.id)
            (prevTemp (pushEvent now st).weather_data c.id)) := by
    rw [update_weather_eq]
    exact fetch_all_wd_mem pyhash results cities (pushEvent now st) c cities_nodup hc
  have hlast : lastChanges (update_weather pyhash now results st) = ch := by
    rw [update_weather_eq]
    unfold lastChanges
    rw [hch, lastOf_append]
  constructor
  · refine ⟨storedObs pyhash c (results c.id)
      (prevTemp (pushEvent now st).weather_data c.id), hwd, ?_⟩
    rcases hfail with ⟨s, cur, hr, hs⟩ | hr
    · rw [hr]
      simp [storedObs, hs, fallback_data]
    · rw [hr]
      simp [storedObs, fallback_data]
  · rw [hlast, hlook]
    rcases hfail with ⟨s, cur, hr, hs⟩ | hr
    · rw [hr]
      simp [recordedChange, hs, firstSome, lookupA]
    · rw [hr]
      simp [recordedChange, firstSome, lookupA]

/-- C7 witness: the theorem at the initial monitor with every fetch raising
an exception; London gets the exception-branch fallback label. -/
theorem c7_witness :
    (cityLondon ∈ cities
      ∧ ((∃ s cur, resultsExn cityLondon.id = FetchResult.response s cur ∧ s ≠ 200)
         ∨ resultsExn cityLondon.id = FetchResult.exn))
    ∧ ((∃ obs,
        lookupA (update_weather hash0 0 resultsExn monitor0).weather_data cityLondon.id
          = some obs
        ∧ obs.temperature = ((20 + hash0 cityLondon.id % 10 : Int) : ℚ)
        ∧ obs.humidity = ((50 + hash0 cityLondon.id % 30 : Int) : ℚ)
        ∧ obs.wind_speed = ((5 + hash0 cityLondon.id % 10 : Int) : ℚ)
        ∧ obs.temp_change = 0
        ∧ (obs.condition = "API Error - Using Fallback Data"
           ∨ obs.condition = "Error - Using Fallback Data"))
      ∧ lookupA (lastChanges (update_weather hash0 0 resultsExn monitor0)) cityLondon.id
          = none) :=
  ⟨⟨by decide, Or.inr rfl⟩,
    c7_fallback_on_failure hash0 0 resultsExn monitor0 cityLondon (by decide) (Or.inr rfl)⟩

/-- C8 counterexample: three consecutive `get` calls at times 0, 3/5 and 6/5
starting from the initial globals; the second and third calls are only 3/5
second apart, yet return different snapshots (timestamps 0 and 6/5): the
freshness window is measured from the cached snapshot's time, not between
calls. -/
theorem c8_counterexample :
    ((6 : ℚ)/5 - 3/5 < 1)
    ∧ (get_system_metrics (3/5) sample0 (get_system_metrics 0 sample0 metrics0).2).1.timestamp
        = 0
    ∧ (get_system_metrics (6/5) sample0
        (get_system_metrics (3/5) sample0 (get_system_metrics 0 sample0 metrics0).2).2).1.timestamp
        = (6 : ℚ)/5
    ∧ (get_system_metrics (3/5) sample0 (get_system_metrics 0 sample0 metrics0).2).1
      ≠ (get_system_metrics (6/5) sample0
          (get_system_metrics (3/5) sample0 (get_system_metrics 0 sample0 metrics0).2).2).1 := by
  decide

/-- C8 (amended): a `get` call made less than 1 second after the cached
snapshot's timestamp returns that cached snapshot with the globals unchanged
(so any two calls in that window return the identical snapshot), while a
call made 1 second or more after the cached snapshot's timestamp samples
anew, returns a snapshot stamped with the current time, and overwrites the
cache; two calls merely less than 1 second apart from each other can
nevertheless straddle the window and return different snapshots. -/
theorem c8_cache_window (current_time : ℚ) (sample : SystemSample) (g : MetricsGlobals)
    (cached : SystemMetrics) (hcache : g.cached_metrics = some cached)
    (htime : g.last_metrics_time = cached.timestamp) :
    (current_time - cached.timestamp < 1 →
      get_system_metrics current_time sample g = (cached, g))
    ∧ (1 ≤ current_time - cached.timestamp →
        (get_system_metrics current_time sample g).1 = build_metrics current_time sample
        ∧ (get_system_metrics current_time sample g).1.timestamp = current_time
        ∧ (get_system_metrics current_time sample g).2
            = { last_metrics_time := current_time,
                cached_metrics := some (build_metrics current_time sample) }) := by
  constructor
  · intro h
    simp [get_system_metrics, hcache, htime, h]
  · intro h
    have h2 : ¬ (current_time - g.last_metrics_time < 1) := by
      rw [htime]
      linarith
    simp [get_system_metrics, hcache, h2, build_metrics]

/-- C8 witness: the amended theorem at a cache populated at time 2, queried
at time 5/2 (inside the window, cached snapshot returned) — both
implications instantiated. -/
theorem c8_witness :
    ((get_system_metrics 2 sample0 metrics0).2.cached_metrics
        = some (build_metrics 2 sample0)
      ∧ (get_system_metrics 2 sample0 metrics0).2.last_metrics_time
        = (build_metrics 2 sample0).timestamp)
    ∧ (((5 : ℚ)/2 - (build_metrics 2 sample0).timestamp < 1 →
        get_system_metrics ((5 : ℚ)/2) sample0 (get_system_metrics 2 sample0 metrics0).2
          = (build_metrics 2 sample0, (get_system_metrics 2 sample0 metrics0).2))
      ∧ (1 ≤ (5 : ℚ)/2 - (build_metrics 2 sample0).timestamp →
          (get_system_metrics ((5 : ℚ)/2) sample0
              (get_system_metrics 2 sample0 metrics0).2).1
            = build_metrics ((5 : ℚ)/2) sample0
          ∧ (get_system_metrics ((5 : ℚ)/2) sample0
              (get_system_metrics 2 sample0 metrics0).2).1.timestamp = (5 : ℚ)/2
          ∧ (get_system_metrics ((5 : ℚ)/2) sample0
              (get_system_metrics 2 sample0 metrics0).2).2
            = { last_metrics_time := (5 : ℚ)/2,
                cached_metrics := some (build_metrics ((5 : ℚ)/2) sample0) })) :=
  ⟨⟨rfl, rfl⟩,
    c8_cache_window ((5 : ℚ)/2) sample0 (get_system_metrics 2 sample0 metrics0).2
      (build_metrics 2 sample0) rfl rfl⟩

/-- C9 (confirmed): a refresh of the fresh monitor in which every configured
city's fetch succeeds yields a weather_data mapping whose keys are exactly
the five static city ids, each entry carrying the static table's display
name and country; and — for every hash function, cycle time, fetch outcomes
(successes or failures) and starting state — after the refresh completes,
every city of the static table is present in the mapping. -/
theorem c9_refresh_populates (pyhash : String → Int) (now : ℚ)
    (results : String → FetchResult)
    (hsucc : ∀ c, c ∈ cities → ∃ cur, results c.id = FetchResult.response 200 cur) :
    ((update_weather pyhash now results monitor0).weather_data.map Prod.fst
        = cities.map City.id)
    ∧ (∀ c, c ∈ cities → ∃ obs,
        lookupA (update_weather pyhash now results monitor0).weather_data c.id = some obs
        ∧ obs.city_name = c.name ∧ obs.country = c.country)
    ∧ (∀ (pyhash2 : String → Int) (now2 : ℚ) (results2 : String → FetchResult)
        (st : WeatherMonitor) (c : City), c ∈ cities →
        (lookupA (update_weather pyhash2 now2 results2 st).weather_data c.id).isSome) := by
  refine ⟨?_, ?_, ?_⟩
  · rw [update_weather_eq, fetch_all_keys, pushEvent_weather_data]
    decide
  · intro c hc
    rw [update_weather_eq,
      fetch_all_wd_mem pyhash results cities (pushEvent now monitor0) c cities_nodup hc]
    obtain ⟨h1, h2⟩ := storedObs_name_country pyhash c (results c.id)
      (prevTemp (pushEvent now monitor0).weather_data c.id)
    exact ⟨_, rfl, h1, h2⟩
  · intro pyhash2 now2 results2 st c hc
    rw [update_weather_eq,
      fetch_all_wd_mem pyhash2 results2 cities (pushEvent now2 st) c cities_nodup hc]
    rfl

/-- C9 witness: the theorem at the all-success run with temperature 10. -/
theorem c9_witness :
    (∀ c, c ∈ cities → ∃ cur, resultsTen c.id = FetchResult.response 200 cur)
    ∧ (((update_weather hash0 0 resultsTen monitor0).weather_data.map Prod.fst
          = cities.map City.id)
      ∧ (∀ c, c ∈ cities → ∃ obs,
          lookupA (update_weather hash0 0 resultsTen monitor0).weather_data c.id = some obs
          ∧ obs.city_name = c.name ∧ obs.country = c.country)
      ∧ (∀ (pyhash2 : String → Int) (now2 : ℚ) (results2 : String → FetchResult)
          (st : WeatherMonitor) (c : City), c ∈ cities →
          (lookupA (update_weather pyhash2 now2 results2 st).weather_data c.id).isSome)) :=
  ⟨fun _ _ => ⟨⟨10, 50, 5, 0⟩, rfl⟩,
    c9_refresh_populates hash0 0 resultsTen (fun _ _ => ⟨⟨10, 50, 5, 0⟩, rfl⟩)⟩

/-- C10 (confirmed): `add_simulated` adds its argument to the simulated
counter with no validation or clamping, for every integer; in particular
adding −1 to the fresh manager drives the counter to −1, below zero. -/
theorem c10_add_simulated_unclamped :
    (∀ (m : ConnectionManager) (n : Int),
      (ConnectionManager.add_simulated n m).2.simulated_connections
        = m.simulated_connections + n)
    ∧ (ConnectionManager.add_simulated (-1) manager0).2.simulated_connections = -1
    ∧ ¬ (0 ≤ (ConnectionManager.add_simulated (-1) manager0).2.simulated_connections) :=
  ⟨fun _ _ => rfl, rfl, by decide⟩
